import Mathlib

/-!
Verification of the computational core of `bca_assay_analysis.py`.

The script processes 96-well-plate absorbance readings: it normalizes the
raw spreadsheet table (lines 22-38), computes per-concentration mean
absorbances for a standard curve (`StandardCurve`, lines 44-127), fits an
ordinary least squares line (lines 133-147), inverts the line to estimate
concentrations (`CalcConc`, lines 201-209) and processes a batch of sample
well locations (lines 214-241).

The embedding below translates the data manipulations into pure Lean
functions over `ℚ` (exact arithmetic standing in for Python floats) and
`List`s (standing in for pandas rows/columns).  Strings are modelled over
ASCII: Python's `str.isdigit`, `str.isalpha`, `str.strip`, `str.upper`
and `int(...)` are reproduced for ASCII characters, which covers every
input the claims are about.
-/

namespace BCA

/-- ASCII model of Python `str.isdigit` on a single character
(`'0'` to `'9'`, code points 48-57). -/
def isDigitCharPy (c : Char) : Bool := 48 ≤ c.toNat && c.toNat ≤ 57

/-- ASCII model of Python `str.isalpha` on a single character
(`'A'`-`'Z'` 65-90, `'a'`-`'z'` 97-122). -/
def isAlphaCharPy (c : Char) : Bool :=
  (65 ≤ c.toNat && c.toNat ≤ 90) || (97 ≤ c.toNat && c.toNat ≤ 122)

/-- ASCII whitespace, as stripped by Python `str.strip` / `int(...)`. -/
def isSpacePy (c : Char) : Bool := c == ' ' || c == '\t' || c == '\n' || c == '\r'

/-- Python `s.isdigit()`: `s` is nonempty and every character is a digit. -/
def pyIsDigit (s : String) : Bool := !s.toList.isEmpty && s.toList.all isDigitCharPy

/-- Python `s.isalpha()`: `s` is nonempty and every character is alphabetic. -/
def pyIsAlpha (s : String) : Bool := !s.toList.isEmpty && s.toList.all isAlphaCharPy

/-- Python `s.strip()`: remove leading and trailing whitespace. -/
def pyStrip (s : String) : String :=
  String.mk (((s.toList.dropWhile isSpacePy).reverse.dropWhile isSpacePy).reverse)

/-- Continuation of the digit-string grammar accepted by Python `int`:
after a first digit, the remainder is `(underscore? digit)*`
(an underscore must sit between two digits). -/
def duRest : List Char → Bool
  | [] => true
  | c :: rest =>
    if c = '_' then
      match rest with
      | [] => false
      | d :: rest2 => isDigitCharPy d && duRest rest2
    else isDigitCharPy c && duRest rest

/-- Digit string with optional interior underscores: `digit (underscore? digit)*`. -/
def duOk : List Char → Bool
  | [] => false
  | c :: rest => isDigitCharPy c && duRest rest

/-- Numeric value of a digit list (underscores already removed). -/
def digitsToNat (l : List Char) : ℕ := l.foldl (fun n c => 10 * n + (c.toNat - 48)) 0

/-- Model of Python `int(s)` on an ASCII string: strip surrounding
whitespace, accept an optional `+`/`-` sign followed by digits with
optional interior underscores; anything else raises `ValueError`,
modelled as `none`.  Note that `int` accepts strictly more strings than
`str.isdigit`, e.g. `"+4"` or `"1_2"`. -/
def pyIntParse (s : String) : Option ℤ :=
  match (pyStrip s).toList with
  | [] => none
  | c :: rest =>
    if c = '+' then
      if duOk rest then some ((digitsToNat (rest.filter (fun d => d ≠ '_')) : ℤ)) else none
    else if c = '-' then
      if duOk rest then some (-(digitsToNat (rest.filter (fun d => d ≠ '_')) : ℤ)) else none
    else
      if duOk (c :: rest) then
        some ((digitsToNat ((c :: rest).filter (fun d => d ≠ '_')) : ℤ))
      else none

/-- Model of `[int(x) for x in locs]` (line 89): parse every token; a single
failure raises `ValueError` for the whole comprehension (`none`). -/
def parseAll : List String → Option (List ℤ)
  | [] => some []
  | t :: rest =>
    match pyIntParse t, parseAll rest with
    | some c, some cs => some (c :: cs)
    | _, _ => none

/-- pandas `.mean()` over a list of values (Lean's `x / 0 = 0` convention
stands in for the NaN of an empty mean, which no claim exercises). -/
def pyMean (l : List ℚ) : ℚ := l.sum / (l.length : ℚ)

/-- Estimator `CalcConc` (lines 201-209): invert the standard line,
`(absorbance - intercept) / slope`.  The Python function performs no
check on `slope`; it is total.  Lean's total division (`x / 0 = 0`)
stands in for the non-finite float numpy produces when `slope = 0`. -/
def CalcConc (slope intercept absorbance : ℚ) : ℚ := (absorbance - intercept) / slope

inductive EstErr where
  | singularCurve
deriving DecidableEq

inductive EstResult where
  | ok (conc : ℚ)
  | error (e : EstErr)
deriving DecidableEq

/-- Follows the spec's words (§4.3), for comparison with `CalcConc`:
"Requires the Fitter's `slope` to be non-zero (fails with
`SingularCurveError` otherwise)". -/
def CalcConcSpec (slope intercept absorbance : ℚ) : EstResult :=
  if slope = 0 then .error .singularCurve else .ok ((absorbance - intercept) / slope)

/-- A raw spreadsheet cell: numeric or not.  The normalizer (lines 22-38)
never inspects cell contents, so non-numeric cells flow through it. -/
inductive Cell where
  | num (q : ℚ)
  | str (s : String)
deriving DecidableEq

/-- The normalized table (`data`, lines 34-38): an index of row labels,
integer column labels, and the value matrix. -/
structure PlateTable where
  rowLabels : List Cell
  colLabels : List ℕ
  values : List (List Cell)
deriving DecidableEq

/-- Model of `df.tail(8)` (line 22): the last 8 rows. -/
def pyTail8 (rows : List (List Cell)) : List (List Cell) := rows.drop (rows.length - 8)

/-- Model of `columns_to_select = columns[1:14]` (line 32): column positions 1
through 13 of a table with `ncols` columns. -/
def columnsToSelect (ncols : ℕ) : List ℕ := ((List.range ncols).drop 1).take 13

/-- Normalizer (lines 22-38): take the last 8 rows, select column
positions 1..13, use the first selected column (position 1, not 0!) as
the row-label index, and rename the remaining columns to 1..12.  The
rename (`data.columns = [x for x in range(1,13)]`, line 37) raises a
pandas length-mismatch `ValueError` unless exactly 12 data columns
remain, i.e. unless the raw table has at least 14 columns; with at most
one column, `columns_to_select[0]` raises `IndexError`.  Both failure
modes are `none`.  No other validation is performed. -/
def normalize (ncols : ℕ) (rows : List (List Cell)) : Option PlateTable :=
  match columnsToSelect ncols with
  | [] => none
  | i0 :: rest =>
    if rest.length = 12 then
      let t := pyTail8 rows
      some { rowLabels := t.map (fun r => r.getD i0 (Cell.str ""))
             colLabels := List.range' 1 12
             values := t.map (fun r => rest.map (fun j => r.getD j (Cell.str ""))) }
    else none

/-- The normalized plate as consumed by the fitter and the batch loop:
8 rows, each a (row label, 12 absorbance values) pair; the integer column
labels 1..12 are positional (`data` columns after line 37). -/
abbrev Plate := List (String × List ℚ)

/-- Model of `data.transpose()[lbl]` / pandas column lookup by label: the first
row whose label matches. -/
def lookupRow (p : Plate) (lbl : String) : Option (List ℚ) :=
  (p.find? (fun r => r.1 == lbl)).map Prod.snd

inductive Orientation where
  | vertical
  | horizontal
deriving DecidableEq

inductive FitError where
  /-- A Python exception raised in the `try` block and intercepted by the
  `except` at line 124 (e.g. `ValueError` from `int`, pandas `KeyError`,
  `IndexError` on an empty location list): the function returns
  `(None, None, None, None)`. -/
  | caught
  /-- The `else` branch at lines 109-112: "Column/row of data could not
  be detected", `new_data = None`. -/
  | invalidOrientation
deriving DecidableEq

inductive OrientResult where
  | ok (o : Orientation)
  | error (e : FitError)
deriving DecidableEq

inductive FitResult where
  | ok (means : List ℚ)
  | error (e : FitError)
deriving DecidableEq

/-- Orientation dispatch of `StandardCurve` (lines 81, 95, 109): decided
by the FIRST location token alone — `standard_values_location[0].isdigit()`
then `standard_values_location[0].isalpha()`. -/
def detectOrientation : List String → OrientResult
  | [] => .error .caught
  | t :: _ =>
    if pyIsDigit t then .ok .vertical
    else if pyIsAlpha t then .ok .horizontal
    else .error .invalidOrientation

/-- Model of `data[cs]` for integer column labels: for each plate row, the values
at the selected columns (label `c` sits at position `c - 1`). -/
def selectCols (p : Plate) (cs : List ℤ) : List (List ℚ) :=
  p.map (fun r => cs.map (fun c => r.2.getD ((c - 1).toNat) 0))

/-- Model of `data.transpose()[ups]`: the transposed table has 12 rows (the
original columns 1..12); row `i` of the selection holds, for each
requested row label, that plate row's value at column position `i`. -/
def transposedRows (p : Plate) (ups : List String) : List (List ℚ) :=
  (List.range 12).map (fun i => ups.map (fun lbl => ((lookupRow p lbl).getD []).getD i 0))

/-- Core of `StandardCurve` (lines 77-122): the computation of `new_data`
from the plate, the number `n` of standard concentrations and the
(already stripped, line 74) location tokens.
Vertical (first token all-digits): `data[[int(x) for x in locs]].mean(axis=1)[0:n]`;
a non-parsing token or an out-of-range column label is an exception
caught at line 124.  Horizontal (first token alphabetic): tokens are
uppercased and looked up in the transposed table,
`transposed[ups].mean(axis=1)[0:n]`.  Otherwise the `else` branch fires. -/
def standardNewData (p : Plate) (n : ℕ) (locs : List String) : FitResult :=
  match detectOrientation locs with
  | .error e => .error e
  | .ok .vertical =>
    match parseAll locs with
    | none => .error .caught
    | some cs =>
      if cs.all (fun c => decide (1 ≤ c ∧ c ≤ 12)) then
        .ok (((selectCols p cs).map pyMean).take n)
      else .error .caught
  | .ok .horizontal =>
    let ups := locs.map String.toUpper
    if ups.all (fun lbl => (lookupRow p lbl).isSome) then
      .ok (((transposedRows p ups).map pyMean).take n)
    else .error .caught

/-- Model of `sklearn.linear_model.LinearRegression().fit(X, y)` for a single
feature with intercept (lines 137-146): center `X` and `y`, solve least
squares, read off `(slope, intercept)`.  When the centered `X` column is
identically zero (fewer than 2 distinct x-values) the minimum-norm
least-squares solution sets the coefficient to 0, so the fit still
succeeds with slope 0 and intercept the mean of `y`; no exception. -/
def olsFit (xs ys : List ℚ) : ℚ × ℚ :=
  let mx := pyMean xs
  let my := pyMean ys
  let sxx := (xs.map (fun x => (x - mx) * (x - mx))).sum
  let sxy := ((xs.zip ys).map (fun q => (q.1 - mx) * (q.2 - my))).sum
  let slope := if sxx = 0 then 0 else sxy / sxx
  (slope, my - slope * mx)

/-- Model of `model.score(X, y)` (line 142): coefficient of determination
`1 - SS_res / SS_tot` of the fitted line. -/
def rSquared (xs ys : List ℚ) : ℚ :=
  let f := olsFit xs ys
  let ssRes := ((xs.zip ys).map (fun q => (q.2 - (f.1 * q.1 + f.2)) * (q.2 - (f.1 * q.1 + f.2)))).sum
  let ssTot := (ys.map (fun y => (y - pyMean ys) * (y - pyMean ys))).sum
  1 - ssRes / ssTot

inductive BatchErr where
  /-- Uncaught `ValueError` from `int(sample)` (line 226): the batch loop
  has no `try`/`except`, so the script aborts. -/
  | valueErr
  /-- Uncaught pandas `KeyError` from `data[...]` / `transposed_data[...]`
  (lines 226, 232): the script aborts. -/
  | keyErr
deriving DecidableEq

/-- First character `sample[0]` of a nonempty token. -/
def firstChar (s : String) : Char := s.toList.headD ' '

/-- Auxiliary accumulator for `pySplitComma`. -/
def splitCommaAux : List Char → List Char → List String
  | [], acc => [String.mk acc.reverse]
  | c :: rest, acc =>
    if c = ',' then String.mk acc.reverse :: splitCommaAux rest []
    else splitCommaAux rest (c :: acc)

/-- Model of Python `s.split(',')` (lines 67, 75, 216): split on commas,
keeping empty pieces; the pieces are NOT stripped. -/
def pySplitComma (s : String) : List String := splitCommaAux s.toList []

/-- Batch loop (lines 218-241).  Note line 219: `sample.strip()` is
executed but its result is DISCARDED, so tokens keep any surrounding
whitespace.  Per token: `""` is skipped; a token whose first character is
a digit goes through `int(sample)` and a column lookup, either of which
raises an uncaught exception; a token whose first character is alphabetic
is uppercased whole and looked up in the transposed table; any other
first character hits the `else` (line 234): a warning is printed and the
token is skipped.  Returns the concentrations printed (in order) and the
uncaught exception, if one aborted the loop. -/
def processBatch (p : Plate) (slope intercept : ℚ) : List String → List ℚ × Option BatchErr
  | [] => ([], none)
  | t :: rest =>
    if t = "" then processBatch p slope intercept rest
    else if isDigitCharPy (firstChar t) then
      match pyIntParse t with
      | none => ([], some .valueErr)
      | some c =>
        if 1 ≤ c ∧ c ≤ 12 then
          let m := pyMean ((p.map (fun r => r.2.getD ((c - 1).toNat) 0)).take 3)
          let pr := processBatch p slope intercept rest
          (CalcConc slope intercept m :: pr.1, pr.2)
        else ([], some .keyErr)
    else if isAlphaCharPy (firstChar t) then
      match lookupRow p t.toUpper with
      | some row =>
        let m := pyMean (row.take 3)
        let pr := processBatch p slope intercept rest
        (CalcConc slope intercept m :: pr.1, pr.2)
      | none => ([], some .keyErr)
    else processBatch p slope intercept rest

/-- A concrete valid 8×12 plate: every value in row `i` (0-based) is `i`. -/
def plate0 : Plate :=
  [("A", List.replicate 12 0), ("B", List.replicate 12 1), ("C", List.replicate 12 2),
   ("D", List.replicate 12 3), ("E", List.replicate 12 4), ("F", List.replicate 12 5),
   ("G", List.replicate 12 6), ("H", List.replicate 12 7)]

/-- A raw-table row in the layout the SPEC calls valid: label first, then
12 numeric cells (13 columns). -/
def mkRawRow13 (lbl : String) : List Cell :=
  Cell.str lbl :: (List.range 12).map (fun k => Cell.num (k : ℚ))

/-- Spec-valid raw table: 8 rows, first column labels A-H, then 12 numbers. -/
def raw13 : List (List Cell) := ["A", "B", "C", "D", "E", "F", "G", "H"].map mkRawRow13

/-- A raw-table row in the layout the CODE consumes: a junk column 0,
labels in column 1, then 12 numeric cells (14 columns). -/
def mkRawRow14 (lbl : String) : List Cell :=
  Cell.str "x" :: Cell.str lbl :: (List.range 12).map (fun k => Cell.num (k : ℚ))

/-- Code-shaped raw table: 8 rows of 14 columns. -/
def raw14 : List (List Cell) := ["A", "B", "C", "D", "E", "F", "G", "H"].map mkRawRow14

/-- A malformed 14-column raw table: only 3 rows, and a non-numeric data
cell in the middle row. -/
def raw14bad : List (List Cell) :=
  [mkRawRow14 "A",
   Cell.num 1 :: Cell.str "B" :: (List.replicate 11 (Cell.num 0) ++ [Cell.str "oops"]),
   mkRawRow14 "C"]

/-- Helper: an alphabetic ASCII character is not a digit. -/
lemma alpha_not_digit_char (c : Char) (h : isAlphaCharPy c = true) : isDigitCharPy c = false := by
  simp only [isAlphaCharPy, Bool.or_eq_true, Bool.and_eq_true, decide_eq_true_eq] at h
  simp only [isDigitCharPy, Bool.and_eq_false_iff, decide_eq_false_iff_not, not_le]
  omega

/-- Helper: a string satisfying Python `isalpha` fails Python `isdigit`. -/
lemma pyIsAlpha_not_pyIsDigit (t : String) (h : pyIsAlpha t = true) : pyIsDigit t = false := by
  rcases hl : t.toList with _ | ⟨c, cs⟩
  · rw [pyIsAlpha, hl] at h
    simp at h
  · rw [pyIsAlpha, hl] at h
    rw [pyIsDigit, hl]
    simp only [List.all_cons, List.isEmpty_cons, Bool.not_false, Bool.true_and,
      Bool.and_eq_true] at h ⊢
    simp [alpha_not_digit_char c h.1]

/-- Helper: one step of the batch loop on a token whose first character
is a digit and which parses to an in-range column. -/
lemma processBatch_cons_digit (p : Plate) (slope intercept : ℚ) (t : String)
    (rest : List String) (c : ℤ) (h1 : t ≠ "") (h2 : isDigitCharPy (firstChar t) = true)
    (h3 : pyIntParse t = some c) (h4 : 1 ≤ c) (h5 : c ≤ 12) :
    processBatch p slope intercept (t :: rest) =
      (CalcConc slope intercept
          (pyMean ((p.map (fun r => r.2.getD ((c - 1).toNat) 0)).take 3))
        :: (processBatch p slope intercept rest).1,
       (processBatch p slope intercept rest).2) := by
  simp [processBatch, h1, h2, h3, h4, h5]

/-- Helper: the vertical branch of `standardNewData`, once detection,
parsing and the range guard are settled. -/
lemma standardNewData_vertical (p : Plate) (n : ℕ) (locs : List String) (cs : List ℤ)
    (hd : detectOrientation locs = .ok .vertical) (hp : parseAll locs = some cs)
    (hg : cs.all (fun c => decide (1 ≤ c ∧ c ≤ 12)) = true) :
    standardNewData p n locs = .ok (((selectCols p cs).map pyMean).take n) := by
  simp [standardNewData, hd, hp]
  simpa using hg

/-- C1: for every absorbance `a` and fitted `(slope, intercept)`, the
estimator returns exactly `(a - intercept) / slope` — `CalcConc` is
literally that expression (source line 209). -/
theorem C1_estimator_formula (slope intercept absorbance : ℚ) :
    CalcConc slope intercept absorbance = (absorbance - intercept) / slope := rfl

/-- C5: round-trip — estimating the absorbance `slope * c + intercept`
returns `c` whenever the slope is non-zero (exact arithmetic). -/
theorem C5_roundtrip (slope intercept c : ℚ) (h : slope ≠ 0) :
    CalcConc slope intercept (slope * c + intercept) = c := by
  unfold CalcConc
  field_simp

/-- Witness for C5 at slope 2, intercept 1, concentration 5. -/
theorem C5_witness : CalcConc 2 1 (2 * 5 + 1) = 5 := C5_roundtrip 2 1 5 (by norm_num)

/-- C7 counterexample: at slope 0 the spec-side estimator fails with
`SingularCurveError`, but the code's `CalcConc` has no error path at all:
it evaluates the division and returns a value (the rational model's
`x / 0 = 0` standing for numpy's non-finite float), so a "concentration
value" IS returned, contrary to the claim. -/
theorem C7_counterexample :
    CalcConcSpec 0 1 2 = .error EstErr.singularCurve ∧ CalcConc 0 1 2 = 0 := by
  norm_num [CalcConcSpec, CalcConc]

/-- C7 amended: `CalcConc` performs no slope check.  For non-zero slope
it agrees with the spec's checked estimator; at slope 0 it still returns
the (junk) value of the division instead of failing. -/
theorem C7_no_slope_check (slope intercept absorbance : ℚ) :
    (slope ≠ 0 → CalcConcSpec slope intercept absorbance =
      .ok (CalcConc slope intercept absorbance))
    ∧ CalcConc 0 intercept absorbance = 0 := by
  constructor
  · intro h
    simp [CalcConcSpec, CalcConc, h]
  · simp [CalcConc]

/-- Witness for C7 amended at slope 2 and at slope 0. -/
theorem C7_witness : CalcConcSpec 2 1 3 = .ok (CalcConc 2 1 3) ∧ CalcConc 0 1 3 = 0 :=
  ⟨(C7_no_slope_check 2 1 3).1 (by norm_num), (C7_no_slope_check 2 1 3).2⟩

/-- C10: a batch token whose first character is neither a digit nor a
letter is skipped (the `else` branch prints a warning and continues);
the loop state is untouched, because `sample.strip()`'s result is
discarded on line 219 and the raw token is dispatched on. -/
theorem C10_first_char_skip (p : Plate) (slope intercept : ℚ) (t : String)
    (rest : List String) (h1 : t ≠ "")
    (h2 : isDigitCharPy (firstChar t) = false) (h3 : isAlphaCharPy (firstChar t) = false) :
    processBatch p slope intercept (t :: rest) = processBatch p slope intercept rest := by
  simp [processBatch, h1, h2, h3]

/-- Witness for C10: splitting the input `"3, 4"` on commas yields the
token `" 4"`, whose first character is a space; it is skipped. -/
theorem C10_witness :
    pySplitComma "3, 4" = ["3", " 4"]
    ∧ processBatch plate0 1 0 [" 4"] = processBatch plate0 1 0 [] :=
  ⟨by decide, C10_first_char_skip plate0 1 0 " 4" [] (by decide) (by decide) (by decide)⟩

/-- C4 counterexample: the token `"3x"` is neither numeric nor
alphabetic, so per the claim it should be skipped with a warning and the
valid token `"4"` should still produce a concentration.  Instead the
code dispatches on the FIRST character `'3'`, calls `int("3x")`, and the
uncaught `ValueError` aborts the whole batch: no concentration is
produced for `"4"`, although `"4"` on its own yields one. -/
theorem C4_counterexample :
    processBatch plate0 1 0 ["3x", "4"] = ([], some BatchErr.valueErr)
    ∧ processBatch plate0 1 0 ["4"] = ([1], none) := by
  refine ⟨by decide, ?_⟩
  rw [processBatch_cons_digit plate0 1 0 "4" [] 4 (by decide) (by decide) (by decide)
    (by decide) (by decide)]
  rw [show ((plate0.map (fun r => r.2.getD (((4 : ℤ) - 1).toNat) 0)).take 3) = [0, 1, 2]
    from by decide]
  norm_num [CalcConc, pyMean, processBatch]

/-- C4 amended: batch dispatch is on the token's first character.  A
token starting with a digit that parses to an in-range column yields the
concentration of the mean of the first 3 readings of that column; one
that fails `int(...)` aborts the batch with an uncaught error (later
tokens produce nothing); a token starting with a letter is uppercased
and resolved as a transposed-plate row; only a token whose first
character is neither digit nor letter is skipped with a warning. -/
theorem C4_batch_dispatch (p : Plate) (slope intercept : ℚ) (t : String)
    (rest : List String) :
    (∀ c : ℤ, t ≠ "" → isDigitCharPy (firstChar t) = true → pyIntParse t = some c →
      1 ≤ c → c ≤ 12 →
      processBatch p slope intercept (t :: rest) =
        (CalcConc slope intercept
            (pyMean ((p.map (fun r => r.2.getD ((c - 1).toNat) 0)).take 3))
          :: (processBatch p slope intercept rest).1,
         (processBatch p slope intercept rest).2))
    ∧ (t ≠ "" → isDigitCharPy (firstChar t) = true → pyIntParse t = none →
        processBatch p slope intercept (t :: rest) = ([], some .valueErr))
    ∧ (∀ row, t ≠ "" → isDigitCharPy (firstChar t) = false →
        isAlphaCharPy (firstChar t) = true → lookupRow p t.toUpper = some row →
        processBatch p slope intercept (t :: rest) =
          (CalcConc slope intercept (pyMean (row.take 3))
              :: (processBatch p slope intercept rest).1,
           (processBatch p slope intercept rest).2))
    ∧ (t ≠ "" → isDigitCharPy (firstChar t) = false → isAlphaCharPy (firstChar t) = false →
        processBatch p slope intercept (t :: rest) = processBatch p slope intercept rest) := by
  refine ⟨?_, ?_, ?_, ?_⟩
  · intro c h1 h2 h3 h4 h5
    simp [processBatch, h1, h2, h3, h4, h5]
  · intro h1 h2 h3
    simp [processBatch, h1, h2, h3]
  · intro row h1 h2 h3 h4
    simp [processBatch, h1, h2, h3, h4]
  · intro h1 h2 h3
    simp [processBatch, h1, h2, h3]

/-- Witness for C4 amended: token `"3"` on `plate0` (column 3's first
three readings are 0, 1, 2). -/
theorem C4_witness :
    processBatch plate0 1 0 ["3", "4"] =
      (CalcConc 1 0 (pyMean ((plate0.map (fun r => r.2.getD (((3 : ℤ) - 1).toNat) 0)).take 3))
          :: (processBatch plate0 1 0 ["4"]).1,
       (processBatch plate0 1 0 ["4"]).2) :=
  (C4_batch_dispatch plate0 1 0 "3" ["4"]).1 3 (by decide) (by decide) (by decide)
    (by decide) (by decide)

/-- C3 counterexample: the token list `["3", "+4"]` is neither fully
numeric (`"+4".isdigit()` is false) nor fully alphabetic, so per the
claim the fit should fail with `InvalidOrientationError`.  Instead the
code inspects only the first token, enters the vertical branch,
`int("+4")` succeeds, and the fit proceeds and produces means. -/
theorem C3_counterexample :
    (¬ ∀ t ∈ ["3", "+4"], pyIsDigit t = true)
    ∧ (¬ ∀ t ∈ ["3", "+4"], pyIsAlpha t = true)
    ∧ standardNewData plate0 2 ["3", "+4"] = .ok [0, 1] := by
  refine ⟨by decide, by decide, ?_⟩
  rw [standardNewData_vertical plate0 2 ["3", "+4"] [3, 4] (by decide) (by decide) (by decide)]
  rw [show selectCols plate0 [3, 4] = [[0, 0], [1, 1], [2, 2], [3, 3], [4, 4], [5, 5], [6, 6], [7, 7]]
    from by decide]
  norm_num [pyMean]

/-- C3 amended: orientation is decided by the FIRST token alone — a
numeric first token selects vertical, an alphabetic first token selects
horizontal, any other first token is the error branch ("Column/row of
data could not be detected").  All-numeric and all-alphabetic lists are
special cases, but mixed lists are not rejected at detection. -/
theorem C3_orientation_dispatch (t : String) (rest : List String) :
    ((∀ l ∈ t :: rest, pyIsDigit l = true) → detectOrientation (t :: rest) = .ok .vertical)
    ∧ ((∀ l ∈ t :: rest, pyIsAlpha l = true) →
        detectOrientation (t :: rest) = .ok .horizontal)
    ∧ (pyIsDigit t = false → pyIsAlpha t = false →
        detectOrientation (t :: rest) = .error .invalidOrientation)
    ∧ (∀ rest', detectOrientation (t :: rest) = detectOrientation (t :: rest')) := by
  refine ⟨?_, ?_, ?_, fun rest' => rfl⟩
  · intro h
    simp [detectOrientation, h t (List.mem_cons_self t rest)]
  · intro h
    have ha := h t (List.mem_cons_self t rest)
    simp [detectOrientation, pyIsAlpha_not_pyIsDigit t ha, ha]
  · intro h1 h2
    simp [detectOrientation, h1, h2]

/-- Witness for C3 amended: `["3", "4"]` is detected as vertical. -/
theorem C3_witness : detectOrientation ["3", "4"] = .ok .vertical :=
  (C3_orientation_dispatch "3" ["4"]).1 (by decide)

/-- C8 counterexample: the concentrations `[2, 2]` contain a single
distinct value, yet the regression does not fail — sklearn's centered
least squares returns the minimum-norm solution, slope 0 and intercept
the mean of `y`, and an R² is computed as well. -/
theorem C8_counterexample :
    olsFit [2, 2] [3, 5] = (0, 4) ∧ rSquared [2, 2] [3, 5] = 0 := by
  norm_num [olsFit, rSquared, pyMean, List.zip, List.zipWith]

/-- C8 amended: with all concentrations equal (fewer than 2 distinct
values) the fit silently succeeds with slope 0 and intercept the mean of
the responses; no `DegenerateFitError` exists in the code. -/
theorem C8_degenerate_fit (c : ℚ) (ys : List ℚ) (h : ys ≠ []) :
    olsFit (List.replicate ys.length c) ys = (0, pyMean ys) := by
  have hn : (ys.length : ℚ) ≠ 0 := by
    simpa [List.length_eq_zero] using h
  have hmx : pyMean (List.replicate ys.length c) = c := by
    rw [pyMean, List.sum_replicate, List.length_replicate, nsmul_eq_mul]
    field_simp
  unfold olsFit
  rw [hmx]
  simp [List.map_replicate, sub_self, mul_zero, List.sum_replicate, smul_zero]

/-- Witness for C8 amended at `c = 7`, `ys = [3, 5]`. -/
theorem C8_witness :
    olsFit (List.replicate ([3, 5] : List ℚ).length 7) [3, 5] = (0, pyMean [3, 5]) :=
  C8_degenerate_fit 7 [3, 5] (by decide)

/-- Numeric-cell test, used to state that a table's data cells are numeric. -/
def cellIsNum : Cell → Bool
  | .num _ => true
  | .str _ => false

/-- Helper: the selected column positions number `min 13 (ncols - 1)`. -/
lemma columnsToSelect_length (n : ℕ) : (columnsToSelect n).length = min 13 (n - 1) := by
  simp [columnsToSelect, List.length_take, List.length_drop, List.length_range]

/-- Helper: with at least 14 raw columns, `columns[1:14]` is positions 1..13. -/
lemma columnsToSelect_of_ge (n : ℕ) (h : 14 ≤ n) :
    columnsToSelect n = [1, 2, 3, 4, 5, 6, 7, 8, 9, 10, 11, 12, 13] := by
  obtain ⟨k, rfl⟩ := Nat.exists_eq_add_of_le h
  unfold columnsToSelect
  rw [List.range_add]
  rw [List.drop_append_of_le_length (by simp)]
  rw [List.take_append_of_le_length (by simp)]
  rfl

/-- C9 counterexample: a 14-column table with only 3 rows and a
non-numeric cell in its middle row is normalized WITHOUT error — the
claimed `MalformedTableError` on row-count mismatch or non-numeric cells
does not happen (the normalizer never inspects row count or cells). -/
theorem C9_counterexample :
    raw14bad.length = 3 ∧ Cell.str "oops" ∈ raw14bad.getD 1 [] ∧
    (normalize 14 raw14bad).isSome = true := by
  decide

/-- C9 amended: the only condition the normalizer enforces is the column
count — it succeeds exactly when the raw table has at least 14 columns
(so that positions 1..13 exist and the rename to 1..12 fits); row count
and cell contents are never validated, and failure is a pandas
length-mismatch `ValueError` (or `IndexError`), not a dedicated
`MalformedTableError`. -/
theorem C9_normalizer_validation (ncols : ℕ) (rows : List (List Cell)) :
    (normalize ncols rows).isSome = true ↔ 14 ≤ ncols := by
  constructor
  · intro h
    by_contra hn
    push_neg at hn
    have hlen : (columnsToSelect ncols).length ≤ 12 := by
      rw [columnsToSelect_length]
      omega
    unfold normalize at h
    rcases hc : columnsToSelect ncols with _ | ⟨i0, rest⟩
    · rw [hc] at h
      simp at h
    · rw [hc] at h
      have hr : rest.length ≠ 12 := by
        rw [hc] at hlen
        simp at hlen
        omega
      simp [hr] at h
  · intro h
    unfold normalize
    rw [columnsToSelect_of_ge ncols h]
    simp

/-- C6 counterexample: a table that is valid per the claim — 8 rows,
exactly 13 columns, row labels A-H in the FIRST column, then 12 numeric
cells — makes the normalizer fail (`columns[1:14]` yields only 12
positions, column 1 is consumed as the index, 11 data columns remain and
the rename to 1..12 raises), so no output with the described shape
exists. -/
theorem C6_counterexample :
    raw13.length = 8 ∧ (∀ r ∈ raw13, r.length = 13) ∧
    (∀ r ∈ raw13, (r.drop 1).all cellIsNum = true) ∧
    raw13.map (fun r => r.getD 0 (Cell.str "")) =
      [Cell.str "A", Cell.str "B", Cell.str "C", Cell.str "D",
       Cell.str "E", Cell.str "F", Cell.str "G", Cell.str "H"] ∧
    normalize 13 raw13 = none := by
  decide

/-- C6 amended: the raw table needs at least 14 columns and 8 rows;
column 0 is discarded, the row labels are read from column 1 (of the
LAST 8 rows), and the output then has exactly 8 rows, those labels, and
12 columns labeled 1..12. -/
theorem C6_normalizer_shape (ncols : ℕ) (rows : List (List Cell))
    (h14 : 14 ≤ ncols) (h8 : 8 ≤ rows.length) :
    ∃ nt, normalize ncols rows = some nt ∧
      nt.rowLabels = (pyTail8 rows).map (fun r => r.getD 1 (Cell.str "")) ∧
      nt.colLabels = List.range' 1 12 ∧
      nt.values.length = 8 ∧
      ∀ v ∈ nt.values, v.length = 12 := by
  have hstep : normalize ncols rows =
      some ⟨(pyTail8 rows).map (fun r => r.getD 1 (Cell.str "")), List.range' 1 12,
        (pyTail8 rows).map
          (fun r => [2, 3, 4, 5, 6, 7, 8, 9, 10, 11, 12, 13].map
            (fun j => r.getD j (Cell.str "")))⟩ := by
    unfold normalize
    rw [columnsToSelect_of_ge ncols h14]
    rfl
  refine ⟨_, hstep, rfl, rfl, ?_, ?_⟩
  · simp [pyTail8]
    omega
  · intro v hv
    simp only [List.mem_map] at hv
    obtain ⟨r, _, rfl⟩ := hv
    simp

/-- Witness for C6 amended on the concrete code-shaped table `raw14`. -/
theorem C6_witness :
    ∃ nt, normalize 14 raw14 = some nt ∧
      nt.rowLabels = (pyTail8 raw14).map (fun r => r.getD 1 (Cell.str "")) ∧
      nt.colLabels = List.range' 1 12 ∧
      nt.values.length = 8 ∧
      ∀ v ∈ nt.values, v.length = 12 :=
  C6_normalizer_shape 14 raw14 (by norm_num) (by decide)

/-- Helper: the horizontal branch of `standardNewData`, once detection
and the label guard are settled. -/
lemma standardNewData_horizontal (p : Plate) (n : ℕ) (locs : List String)
    (hd : detectOrientation locs = .ok .horizontal)
    (hg : (locs.map String.toUpper).all (fun lbl => (lookupRow p lbl).isSome) = true) :
    standardNewData p n locs =
      .ok (((transposedRows p (locs.map String.toUpper)).map pyMean).take n) := by
  simp [standardNewData, hd, hg]

/-- C2 counterexample: on a valid 8×12 plate with 9 concentrations and
the single replicate column "3", the mean-absorbance sequence has length
8 (the slice `[0:9]` of an 8-row mean series), NOT the length 9 of the
concentration list as claimed. -/
theorem C2_counterexample :
    plate0.length = 8 ∧ (∀ r ∈ plate0, r.2.length = 12) ∧
    standardNewData plate0 9 ["3"] = .ok [0, 1, 2, 3, 4, 5, 6, 7] ∧
    ([0, 1, 2, 3, 4, 5, 6, 7] : List ℚ).length ≠ 9 := by
  refine ⟨by decide, by decide, ?_, by decide⟩
  rw [standardNewData_vertical plate0 9 ["3"] [3] (by decide) (by decide) (by decide)]
  rw [show selectCols plate0 [3] = [[0], [1], [2], [3], [4], [5], [6], [7]] from by decide]
  norm_num [pyMean]

/-- C2 amended: the claim holds PROVIDED the concentration count `n` is
at most the number of plate rows (8; at most 12 in horizontal mode,
where the transposed table has 12 rows) and every token resolves (a
column 1-12, resp. an existing row label once uppercased) — in general
the produced sequence has length `min n 8` (resp. `min n 12`).  Then for
each `i < n` the i-th mean is the mean of the values at the listed
columns in plate row `i` (resp. of the values of the listed rows at
column position `i` of the transposed table), and the sequence has
length `n`. -/
theorem C2_mean_absorbance (p : Plate) (n : ℕ) (locs : List String) (hp : p.length = 8) :
    ((∀ t ∈ locs, pyIsDigit t = true) → locs ≠ [] →
      ∀ cs : List ℤ, parseAll locs = some cs → (∀ c ∈ cs, 1 ≤ c ∧ c ≤ 12) → n ≤ 8 →
      ∃ l, standardNewData p n locs = .ok l ∧ l.length = n ∧
        ∀ i, i < n →
          l.getD i 0 =
            pyMean (cs.map (fun c => (p.getD i ("", [])).2.getD ((c - 1).toNat) 0)))
    ∧ ((∀ t ∈ locs, pyIsAlpha t = true) → locs ≠ [] →
      (∀ t ∈ locs, (lookupRow p t.toUpper).isSome = true) → n ≤ 12 →
      ∃ l, standardNewData p n locs = .ok l ∧ l.length = n ∧
        ∀ i, i < n →
          l.getD i 0 =
            pyMean (locs.map (fun t => ((lookupRow p t.toUpper).getD []).getD i 0))) := by
  constructor
  · intro hdig hne cs hparse hrange hn
    obtain ⟨t, rest, rfl⟩ := List.exists_cons_of_ne_nil hne
    have hd : detectOrientation (t :: rest) = .ok .vertical := by
      simp [detectOrientation, hdig t (List.mem_cons_self t rest)]
    have hg : cs.all (fun c => decide (1 ≤ c ∧ c ≤ 12)) = true := by
      simp only [List.all_eq_true, decide_eq_true_eq]
      exact hrange
    refine ⟨_, standardNewData_vertical p n (t :: rest) cs hd hparse hg, ?_, ?_⟩
    · simp [selectCols, List.length_take, hp]
      omega
    · intro i hi
      have hi8 : i < p.length := by omega
      rw [List.getD_eq_getElem?_getD, List.getElem?_take_of_lt hi]
      simp only [selectCols, List.getElem?_map, List.getElem?_eq_getElem hi8,
        Option.map_some', Option.getD_some]
      rw [List.getD_eq_getElem p ("", []) hi8]
  · intro halpha hne hlook hn
    obtain ⟨t, rest, rfl⟩ := List.exists_cons_of_ne_nil hne
    have ha := halpha t (List.mem_cons_self t rest)
    have hd : detectOrientation (t :: rest) = .ok .horizontal := by
      simp [detectOrientation, pyIsAlpha_not_pyIsDigit t ha, ha]
    have hg : ((t :: rest).map String.toUpper).all
        (fun lbl => (lookupRow p lbl).isSome) = true := by
      simp only [List.all_map, List.all_eq_true, Function.comp]
      exact hlook
    refine ⟨_, standardNewData_horizontal p n (t :: rest) hd hg, ?_, ?_⟩
    · simp [transposedRows, List.length_take]
      omega
    · intro i hi
      have hi12 : i < (List.range 12).length := by
        simp
        omega
      rw [List.getD_eq_getElem?_getD, List.getElem?_take_of_lt hi]
      simp only [transposedRows, List.getElem?_map, List.getElem?_eq_getElem hi12,
        Option.map_some', Option.getD_some, List.getElem_range, List.map_map]
      rfl

/-- Witness for C2 amended: plate `plate0`, 2 concentrations, vertical
replicate columns "3" and "4". -/
theorem C2_witness :
    ∃ l, standardNewData plate0 2 ["3", "4"] = .ok l ∧ l.length = 2 ∧
      ∀ i, i < 2 →
        l.getD i 0 =
          pyMean (([3, 4] : List ℤ).map
            (fun c => (plate0.getD i ("", [])).2.getD ((c - 1).toNat) 0)) :=
  (C2_mean_absorbance plate0 2 ["3", "4"] (by decide)).1 (by decide) (by decide)
    [3, 4] (by decide) (by decide) (by decide)

end BCA
